import Mathlib

/-!
Verification development for the PyPMS binary framing/decoding engine and its
observation data model.  Byte streams are embedded as `List Nat` (each entry a
byte value), machine words as `Nat` with explicit `% 2 ^ 16` where overflow
matters, Python float division as exact rational arithmetic over `ℚ`, and
Python exceptions as `Except`/`Option` results.
-/

set_option maxRecDepth 8000

namespace PyPMS

/-- Big-endian combination of two bytes into one 16-bit unsigned value. -/
def be16 (hi lo : Nat) : Nat := hi * 256 + lo

/-- Split a byte list into consecutive big-endian 16-bit unsigned integers,
in wire order (FieldDecoder of the framing engine). -/
def words : List Nat → List Nat
  | hi :: lo :: rest => be16 hi lo :: words rest
  | _ => []

/-- Checksum rule: sum of every byte before the trailing 2-byte checksum,
reduced mod 65536. -/
def chksum (msg : List Nat) : Nat := (msg.take (msg.length - 2)).sum % 65536

/-- The last two bytes of a message read as one big-endian 16-bit value. -/
def tailWord (msg : List Nat) : Nat :=
  match msg.drop (msg.length - 2) with
  | [hi, lo] => be16 hi lo
  | _ => 0

/-- The message payload: the bytes between the header and the trailing
2-byte checksum. -/
def payloadOf (headerLen frameLen : Nat) (msg : List Nat) : List Nat :=
  (msg.drop headerLen).take (frameLen - headerLen - 2)

/-- Distinctly named frame-validation failures, mirroring the SensorWarning
messages exercised by the tests: observed length, observed header bytes,
actual and expected checksum, and the warming-up empty frame.  `badPayload`
and `headerNotFound` cover the remaining decode fall-through paths. -/
inductive SensorWarning where
  | badLength (got : Nat)
  | badHeader (got : List Nat)
  | badChecksum (actual expected : Nat)
  | empty
  | headerNotFound
  | badPayload
  deriving DecidableEq

/-- PMSx003 observation record, embedding the `PMSx003` NamedTuple of
`pms/obsdata.py`: measurement time, raw (cf=1) PM estimates, calibrated PM
values, and optional particle-count fields that default to `none`. -/
structure PMSx003 where
  time : Nat
  raw01 : Nat
  raw25 : Nat
  raw10 : Nat
  pm01 : Nat
  pm25 : Nat
  pm10 : Nat
  n0_3 : Option Nat := none
  n0_5 : Option Nat := none
  n1_0 : Option Nat := none
  n2_5 : Option Nat := none
  n5_0 : Option Nat := none
  n10_0 : Option Nat := none
  deriving DecidableEq

/-- The tests refer to the observation record as `SensorData`; in
`pms/obsdata.py` the same positional layout is the `PMSx003` NamedTuple. -/
abbrev SensorData := PMSx003

/-- `class PMS3003(PMSx003): pass` in `pms/obsdata.py`: the PMS3003
observation record is the PMSx003 record itself (particle counts stay at
their `none` default when only six fields are decoded). -/
abbrev PMS3003 := PMSx003

/-- Modelled from the spec: the per-family VariantSpec constant table (the
SensorType enum module is absent from src; header bytes and frame lengths
are pinned by the frames and the `message_header`/`message_length`
references in the tests). -/
structure SensorType where
  message_header : List Nat
  message_length : Nat
  data_records : Nat
  deriving DecidableEq

/-- PMSx003 family: 4-byte header `42 4d 00 1c`, 32-byte frames, 12 data
records. -/
def SensorType.PMSx003 : SensorType :=
  { message_header := [0x42, 0x4d, 0x00, 0x1c], message_length := 32, data_records := 12 }

/-- PMS3003 family: 4-byte header `42 4d 00 14`, 24-byte frames, 6 data
records. -/
def SensorType.PMS3003 : SensorType :=
  { message_header := [0x42, 0x4d, 0x00, 0x14], message_length := 24, data_records := 6 }

/-- Modelled from the spec: FrameValidator (`SensorMessage._validate` is
absent from src).  Checks in order: (1) byte length against the variant
frame length, failing with the observed length; (2) leading bytes against
the variant header, failing with the observed header bytes; (3) the last
two bytes read big-endian against the sum of all preceding bytes mod
65536, failing with actual and expected values; (4) warm-up, failing with
the distinct empty condition when every payload byte is zero.  Returns the
unchanged bytes on success. -/
def validate (header : List Nat) (length : Nat) (msg : List Nat) :
    Except SensorWarning (List Nat) :=
  if msg.length ≠ length then .error (.badLength msg.length)
  else if msg.take header.length ≠ header then .error (.badHeader (msg.take header.length))
  else if tailWord msg ≠ chksum msg then .error (.badChecksum (tailWord msg) (chksum msg))
  else if (payloadOf header.length length msg).all (· = 0) then .error .empty
  else .ok msg

/-- Boolean success test for a validation result. -/
def okB (e : Except SensorWarning (List Nat)) : Bool :=
  match e with
  | .ok _ => true
  | .error _ => false

/-- The candidate frame of a variant starting at offset `i` of a buffer. -/
def extract (len : Nat) (buffer : List Nat) (i : Nat) : List Nat :=
  (buffer.drop i).take len

/-- Modelled from the spec: ByteFrameScanner resolution rule (the scanner
module is absent from src) — the scan must resolve to the occurrence that
yields a complete, checksum-valid frame.  Returns the first offset where a
full valid frame of the variant starts. -/
def findValid (s : SensorType) (buffer : List Nat) : Option Nat :=
  (List.range buffer.length).find? fun i =>
    okB (validate s.message_header s.message_length (extract s.message_length buffer i))

/-- Modelled from the spec: fallback scan for the 2-byte magic that opens
the variant header, used to locate the candidate whose validation failure
is reported when no valid frame exists in the buffer. -/
def findMagic (s : SensorType) (buffer : List Nat) : Option Nat :=
  (List.range buffer.length).find? fun i =>
    decide ((buffer.drop i).take 2 = s.message_header.take 2)

/-- FieldDecoder applied to one frame: the big-endian 16-bit words of the
payload, truncated to the variant data records. -/
def frameData (s : SensorType) (msg : List Nat) : List Nat :=
  (words (payloadOf s.message_header.length s.message_length msg)).take s.data_records

/-- Modelled from the spec: the ObservationBuilder (absent from src; pinned
by the tests, which compare the decode result with `SensorData(secs, *msg)`):
positionally fills the time and the decoded fields — 12 fields give a full
PMSx003 record, 6 fields give a PMS3003 record with no particle counts. -/
def mkSensorData (time : Nat) : List Nat → Option SensorData
  | [a, b, c, d, e, f, g, h, i, j, k, l] =>
      some ⟨time, a, b, c, d, e, f, some g, some h, some i, some j, some k, some l⟩
  | [a, b, c, d, e, f] =>
      some ⟨time, a, b, c, d, e, f, none, none, none, none, none, none⟩
  | _ => none

/-- Decode one located frame: validate it, then build the observation from
its data records. -/
def decodeFrame (s : SensorType) (time : Nat) (msg : List Nat) :
    Except SensorWarning SensorData :=
  match validate s.message_header s.message_length msg with
  | .error e => .error e
  | .ok m =>
    match mkSensorData time (frameData s m) with
    | some o => .ok o
    | none => .error .badPayload

/-- Modelled from the spec: `SensorType.decode` (absent from src).  Scans
the buffer for a complete valid frame and decodes it; otherwise validates
the first candidate that opens with the 2-byte magic, surfacing that
candidate's distinctly named validation failure; otherwise the header is
absent from the buffer. -/
def decode (s : SensorType) (time : Nat) (buffer : List Nat) :
    Except SensorWarning SensorData :=
  match findValid s buffer with
  | some i => decodeFrame s time (extract s.message_length buffer i)
  | none =>
    match findMagic s buffer with
    | some i => decodeFrame s time (extract s.message_length buffer i)
    | none => .error .headerNotFound

/-- The known-good 32-byte PMSx003 frame from the tests,
hex `424d001c0005000d00160005000d001602fd00fc001d000f00060006970003c5`. -/
def frame1 : List Nat :=
  [0x42, 0x4d, 0x00, 0x1c, 0x00, 0x05, 0x00, 0x0d, 0x00, 0x16, 0x00, 0x05,
   0x00, 0x0d, 0x00, 0x16, 0x02, 0xfd, 0x00, 0xfc, 0x00, 0x1d, 0x00, 0x0f,
   0x00, 0x06, 0x00, 0x06, 0x97, 0x00, 0x03, 0xc5]

/-- The observation the tests expect for `frame1` at time 1567201793. -/
def obs1 : SensorData :=
  ⟨1567201793, 5, 13, 22, 5, 13, 22,
   some 765, some 252, some 29, some 15, some 6, some 6⟩

/-- The known-good 24-byte PMS3003 frame from the tests,
hex `424d00140051006A007700350046004F33D20F28003F041A`. -/
def frame3 : List Nat :=
  [0x42, 0x4d, 0x00, 0x14, 0x00, 0x51, 0x00, 0x6a, 0x00, 0x77, 0x00, 0x35,
   0x00, 0x46, 0x00, 0x4f, 0x33, 0xd2, 0x0f, 0x28, 0x00, 0x3f, 0x04, 0x1a]

/-- The observation the tests expect for `frame3` at time 1567201793. -/
def obs3 : SensorData :=
  ⟨1567201793, 81, 106, 119, 53, 70, 79, none, none, none, none, none, none⟩

/-- The all-zero-payload PMSx003 frame from the tests (valid header and
checksum), hex `424d001c000000000000000000000000000000000000000000000000000000ab`. -/
def emptyFrame1 : List Nat :=
  [0x42, 0x4d, 0x00, 0x1c, 0x00, 0x00, 0x00, 0x00, 0x00, 0x00, 0x00, 0x00,
   0x00, 0x00, 0x00, 0x00, 0x00, 0x00, 0x00, 0x00, 0x00, 0x00, 0x00, 0x00,
   0x00, 0x00, 0x00, 0x00, 0x00, 0x00, 0x00, 0xab]

/-- Eighteen unrelated garbage bytes (the tail words of a frame plus two
filler bytes), containing no valid frame start. -/
def garbage18 : List Nat :=
  [0x02, 0xfd, 0x00, 0xfc, 0x00, 0x1d, 0x00, 0x0f, 0x00, 0x06, 0x00, 0x06,
   0x97, 0x00, 0x03, 0xc5, 0x01, 0x02]

deriving instance DecidableEq for Except

/-- Stand-in for the local-time rendering `%F %T` of `datetime.fromtimestamp`
in `pms/obsdata.py`: the actual text depends on the host timezone, so the
embedding keeps an injective placeholder keyed by the epoch value. -/
def strftimeFT (t : Nat) : String := "time(" ++ toString t ++ ")"

/-- Python d-format of an optional field, as in `PMSx003.__format__` of
`pms/obsdata.py`: a missing (None) field renders as the empty string. -/
def fmtD : Option Nat → String
  | some v => toString v
  | none => ""

/-- Python fixed-point rendering with one decimal place, exact on multiples
of one tenth — the only values `SDS01x.__format__` feeds it. -/
def fix1 (q : ℚ) : String :=
  toString (⌊q * 10⌋ / 10) ++ "." ++ toString (⌊q * 10⌋ % 10)

/-- Percentage rendering with zero decimals for the `cf` format code of
`PMSx003.__format__` (Python `.0%`; the float rounding mode is approximated
by rational rounding — no claim depends on it). -/
def pct0 (q : ℚ) : String := toString (round (q * 100)) ++ "%"

/-- `PMSx003._safe_div` from `pms/obsdata.py`: `x / y` when `y` is nonzero,
`1` when both are zero, `0` otherwise.  Python float division is embedded as
exact division in `ℚ`. -/
def PMSx003._safe_div (x y : Nat) : ℚ :=
  if y ≠ 0 then (x : ℚ) / (y : ℚ)
  else if x = 0 ∧ y = 0 then 1
  else 0

/-- `PMSx003.subset` from `pms/obsdata.py`: the `pm` group projects the
calibrated PM fields, the `cf` group the three collection factors computed
with `_safe_div`; any other code raises ValueError (embedded as `none`). -/
def PMSx003.subset (o : PMSx003) (spec : String) : Option (List (String × ℚ)) :=
  if spec = "pm" then
    some [("pm01", (o.pm01 : ℚ)), ("pm25", (o.pm25 : ℚ)), ("pm10", (o.pm10 : ℚ))]
  else if spec = "cf" then
    some [("cf01", PMSx003._safe_div o.pm01 o.raw01),
          ("cf25", PMSx003._safe_div o.pm25 o.raw25),
          ("cf10", PMSx003._safe_div o.pm10 o.raw10)]
  else none

/-- `PMSx003.__format__` from `pms/obsdata.py`, for the unmodified format
codes (width/precision prefixes are orthogonal to every claim and omitted):
`pm` renders date and calibrated PM values; `csv` renders the time and all
twelve fields, optional fields blank when missing; `num` renders date and
the six particle-count fields, blank when missing; `cf` renders the
collection factors of `subset("cf")` as percentages; any other code raises
ValueError (embedded as `none`). -/
def PMSx003.format (o : PMSx003) (spec : String) : Option String :=
  if spec = "pm" then
    some (strftimeFT o.time ++ ": PM1 " ++ toString o.pm01 ++ ", PM2.5 " ++
      toString o.pm25 ++ ", PM10 " ++ toString o.pm10 ++ " ug/m3")
  else if spec = "csv" then
    some (toString o.time ++ ", " ++ toString o.raw01 ++ ", " ++ toString o.raw25 ++
      ", " ++ toString o.raw10 ++ ", " ++ toString o.pm01 ++ ", " ++ toString o.pm25 ++
      ", " ++ toString o.pm10 ++ ", " ++ fmtD o.n0_3 ++ ", " ++ fmtD o.n0_5 ++
      ", " ++ fmtD o.n1_0 ++ ", " ++ fmtD o.n2_5 ++ ", " ++ fmtD o.n5_0 ++
      ", " ++ fmtD o.n10_0)
  else if spec = "num" then
    some (strftimeFT o.time ++ ": N0.3 " ++ fmtD o.n0_3 ++ ", N0.5 " ++ fmtD o.n0_5 ++
      ", N1.0 " ++ fmtD o.n1_0 ++ ", N2.5 " ++ fmtD o.n2_5 ++ ", N5.0 " ++
      fmtD o.n5_0 ++ ", N10 " ++ fmtD o.n10_0 ++ " #/100cc")
  else if spec = "cf" then
    match o.subset "cf" with
    | some [(_, c01), (_, c25), (_, c10)] =>
        some (strftimeFT o.time ++ ": CF1 " ++ pct0 c01 ++ ", CF2.5 " ++ pct0 c25 ++
          ", CF10 " ++ pct0 c10)
    | _ => none
  else none

/-- `PMSx003.__str__` from `pms/obsdata.py`: the default rendering delegates
to the `pm` format code. -/
def PMSx003.str (o : PMSx003) : Option String := o.format "pm"

/-- SDS01x observation record, embedding the `SDS01x` NamedTuple of
`pms/obsdata.py`: measurement time and the two wire fields, PM2.5 and PM10
each pre-scaled by ten, stored unchanged as integers. -/
structure SDS01x where
  time : Nat
  raw25 : Nat
  raw10 : Nat
  deriving DecidableEq

/-- `SDS01x.subset` from `pms/obsdata.py`: only the `pm` group exists and it
divides the stored wire values by ten; any other code raises ValueError
(embedded as `none`). -/
def SDS01x.subset (o : SDS01x) (spec : String) : Option (List (String × ℚ)) :=
  if spec = "pm" then
    some [("pm25", (o.raw25 : ℚ) / 10), ("pm10", (o.raw10 : ℚ) / 10)]
  else none

/-- `SDS01x.__format__` from `pms/obsdata.py`, for the unmodified format
codes: `pm` and `csv` render the values of `subset("pm")` with one decimal
place; any other code raises ValueError (embedded as `none`). -/
def SDS01x.format (o : SDS01x) (spec : String) : Option String :=
  if spec = "pm" then
    match o.subset "pm" with
    | some [(_, p25), (_, p10)] =>
        some (strftimeFT o.time ++ ": PM2.5 " ++ fix1 p25 ++ ", PM10 " ++
          fix1 p10 ++ " ug/m3")
    | _ => none
  else if spec = "csv" then
    match o.subset "pm" with
    | some [(_, p25), (_, p10)] =>
        some (toString o.time ++ ", " ++ fix1 p25 ++ ", " ++ fix1 p10)
    | _ => none
  else none

/-- `SDS01x.__str__` from `pms/obsdata.py`: the default rendering delegates
to the `pm` format code. -/
def SDS01x.str (o : SDS01x) : Option String := o.format "pm"

/-- A fully populated PMSx003 observation (the field layout of the format
test), used as a concrete subset-projection input. -/
def obsFull : PMSx003 :=
  ⟨1567198523, 1, 2, 3, 4, 5, 6,
   some 7, some 8, some 9, some 10, some 11, some 12⟩

/-- `List.find?` over `range'` returns the first satisfying offset. -/
theorem find?_range'_first (p : Nat → Bool) :
    ∀ (n a k : Nat), k < n → (∀ i, i < k → p (a + i) = false) → p (a + k) = true →
      (List.range' a n).find? p = some (a + k) := by
  intro n
  induction n with
  | zero => intro a k hk _ _; omega
  | succ m ih =>
    intro a k hk hfalse htrue
    rw [List.range'_succ]
    cases k with
    | zero =>
      rw [List.find?_cons_of_pos _ (by simpa using htrue)]
      simp
    | succ j =>
      rw [List.find?_cons_of_neg _ (by simpa using hfalse 0 (Nat.succ_pos j))]
      have e : a + (j + 1) = a + 1 + j := by omega
      rw [e]
      exact ih (a + 1) j (by omega)
        (fun i hi => by
          have h2 := hfalse (i + 1) (by omega)
          have e2 : a + (i + 1) = a + 1 + i := by omega
          rwa [e2] at h2)
        (by rwa [e] at htrue)

/-- A message that validates successfully has exactly the frame length. -/
theorem length_of_validate_ok (header : List Nat) (L : Nat) (msg : List Nat)
    (h : okB (validate header L msg) = true) : msg.length = L := by
  by_cases hl : msg.length = L
  · exact hl
  · simp [validate, hl, okB] at h

/-- A message that validates successfully is nonempty: its payload holds a
nonzero byte, so the frame cannot be the empty list. -/
theorem length_pos_of_validate_ok (header : List Nat) (L : Nat) (msg : List Nat)
    (h : okB (validate header L msg) = true) : 0 < msg.length := by
  by_cases h1 : msg.length = L
  · by_cases h2 : msg.take header.length = header
    · by_cases h3 : tailWord msg = chksum msg
      · by_cases h4 : (payloadOf header.length L msg).all (· = 0) = true
        · simp [validate, h1, h2, h3, h4, okB] at h
        · cases msg with
          | nil => exact absurd (by simp [payloadOf]) h4
          | cons x xs => simp
      · simp [validate, h1, h2, h3, okB] at h
    · simp [validate, h1, h2, okB] at h
  · simp [validate, h1, okB] at h

/-- Candidates shorter or longer than the frame length never validate. -/
theorem not_okB_of_length_ne (header : List Nat) (L : Nat) (msg : List Nat)
    (h : msg.length ≠ L) : okB (validate header L msg) = false := by
  simp [validate, h, okB]

/-- The scan over a buffer made of unrelated bytes followed by one complete
valid frame resolves to the frame offset. -/
theorem findValid_append (s : SensorType) (g frame : List Nat)
    (hv : validate s.message_header s.message_length frame = .ok frame)
    (hg : ∀ i, i < g.length →
      okB (validate s.message_header s.message_length
        (extract s.message_length (g ++ frame) i)) = false) :
    findValid s (g ++ frame) = some g.length := by
  have hok : okB (validate s.message_header s.message_length frame) = true := by
    rw [hv]; rfl
  have hflen : frame.length = s.message_length := length_of_validate_ok _ _ _ hok
  have hfpos : 0 < frame.length := length_pos_of_validate_ok _ _ _ hok
  have hext : extract s.message_length (g ++ frame) g.length = frame := by
    unfold extract
    rw [List.drop_left g frame, ← hflen, List.take_length]
  unfold findValid
  rw [List.range_eq_range' ((g ++ frame).length)]
  have h := find?_range'_first
    (fun i => okB (validate s.message_header s.message_length
      (extract s.message_length (g ++ frame) i)))
    ((g ++ frame).length) 0 g.length
    (by simp [List.length_append]; omega)
    (fun i hi => by simpa using hg i hi)
    (by simpa [hext] using hok)
  simpa using h

/-- A buffer that is exactly one valid frame scans to offset zero. -/
theorem findValid_self (s : SensorType) (frame : List Nat)
    (hv : validate s.message_header s.message_length frame = .ok frame) :
    findValid s frame = some 0 := by
  have h := findValid_append s [] frame hv (fun i hi => by simp at hi)
  simpa using h

/-- Decoding a buffer that is exactly one valid frame decodes that frame. -/
theorem decode_eq_decodeFrame_of_valid (s : SensorType) (t : Nat) (frame : List Nat)
    (hv : validate s.message_header s.message_length frame = .ok frame) :
    decode s t frame = decodeFrame s t frame := by
  have hok : okB (validate s.message_header s.message_length frame) = true := by
    rw [hv]; rfl
  have hflen : frame.length = s.message_length := length_of_validate_ok _ _ _ hok
  have hext : extract s.message_length frame 0 = frame := by
    unfold extract
    rw [List.drop_zero, ← hflen, List.take_length]
  unfold decode
  rw [findValid_self s frame hv]
  simp only [hext]

/-- C1: decoding a valid frame yields the observation built from the
big-endian 16-bit unsigned interpretation of the frame payload words, in
wire order (truncated to the variant data records); the concrete 32-byte
PMSx003 scenario is the witness below. -/
theorem claim_C1_decode_be16 (s : SensorType) (t : Nat) (msg : List Nat)
    (hv : validate s.message_header s.message_length msg = .ok msg) :
    decode s t msg =
      (match mkSensorData t
          ((words (payloadOf s.message_header.length s.message_length msg)).take
            s.data_records) with
       | some o => Except.ok o
       | none => Except.error .badPayload) := by
  rw [decode_eq_decodeFrame_of_valid s t msg hv]
  unfold decodeFrame
  rw [hv]
  rfl

/-- C1 witness: the frame with hex
`424d001c0005000d00160005000d001602fd00fc001d000f00060006970003c5` at
caller-supplied time 1567201793 decodes to the observation with that time,
raw fields (5,13,22), calibrated fields (5,13,22) and particle counts
(765,252,29,15,6,6). -/
theorem claim_C1_witness :
    validate SensorType.PMSx003.message_header SensorType.PMSx003.message_length frame1 =
      .ok frame1 ∧
    decode SensorType.PMSx003 1567201793 frame1 = .ok obs1 := by
  have hv : validate SensorType.PMSx003.message_header
      SensorType.PMSx003.message_length frame1 = .ok frame1 := by decide
  refine ⟨hv, ?_⟩
  rw [claim_C1_decode_be16 SensorType.PMSx003 1567201793 frame1 hv]
  decide

/-- C2: frame validation checks, in order, the byte length (failing with
the observed length), the leading header bytes (failing with the observed
bytes), and the trailing big-endian checksum against the sum of all
preceding bytes mod 65536 (failing with actual and expected values), each
failure carried by a distinct constructor; the concrete scenario failures
are the witness below. -/
theorem claim_C2_validate_order (header : List Nat) (L : Nat) (msg : List Nat) :
    (msg.length ≠ L → validate header L msg = .error (.badLength msg.length)) ∧
    (msg.length = L → msg.take header.length ≠ header →
      validate header L msg = .error (.badHeader (msg.take header.length))) ∧
    (msg.length = L → msg.take header.length = header → tailWord msg ≠ chksum msg →
      validate header L msg = .error (.badChecksum (tailWord msg) (chksum msg))) ∧
    chksum msg = (msg.take (msg.length - 2)).sum % 65536 ∧
    (∀ hi lo : Nat, msg.drop (msg.length - 2) = [hi, lo] →
      tailWord msg = hi * 256 + lo) := by
  refine ⟨?_, ?_, ?_, rfl, ?_⟩
  · intro h; simp [validate, h]
  · intro h1 h2; simp [validate, h1, h2]
  · intro h1 h2 h3; simp [validate, h1, h2, h3]
  · intro hi lo h; simp [tailWord, h, be16]

/-- C2 witness: the scenario-1 hex truncated to 10 bytes fails reporting
length 10, and the scenario-1 frame with zeroed checksum bytes fails
reporting actual 0 against expected 965. -/
theorem claim_C2_witness :
    validate SensorType.PMSx003.message_header 32 (frame1.take 10) =
      .error (.badLength 10) ∧
    validate SensorType.PMSx003.message_header 32 (frame1.take 30 ++ [0, 0]) =
      .error (.badChecksum 0 965) := by
  constructor
  · exact (claim_C2_validate_order SensorType.PMSx003.message_header 32
      (frame1.take 10)).1 (by decide)
  · exact ((claim_C2_validate_order SensorType.PMSx003.message_header 32
      (frame1.take 30 ++ [0, 0])).2.2.1 (by decide) (by decide) (by decide))

/-- C4: a buffer of unrelated bytes (no valid frame starts inside them)
followed by one complete valid frame decodes to exactly the observation of
the frame alone; the 18-byte-garbage instance is the witness below. -/
theorem claim_C4_resync (s : SensorType) (t : Nat) (g frame : List Nat)
    (hv : validate s.message_header s.message_length frame = .ok frame)
    (hg : ∀ i, i < g.length →
      okB (validate s.message_header s.message_length
        (extract s.message_length (g ++ frame) i)) = false) :
    decode s t (g ++ frame) = decode s t frame := by
  have hok : okB (validate s.message_header s.message_length frame) = true := by
    rw [hv]; rfl
  have hflen : frame.length = s.message_length := length_of_validate_ok _ _ _ hok
  have hext : extract s.message_length (g ++ frame) g.length = frame := by
    unfold extract
    rw [List.drop_left g frame, ← hflen, List.take_length]
  rw [decode_eq_decodeFrame_of_valid s t frame hv]
  unfold decode
  rw [findValid_append s g frame hv hg]
  simp only [hext]

/-- C4 witness: the scenario-1 frame preceded by 18 unrelated bytes decodes
to the identical observation. -/
theorem claim_C4_witness :
    validate SensorType.PMSx003.message_header SensorType.PMSx003.message_length frame1 =
      .ok frame1 ∧
    (∀ i, i < garbage18.length →
      okB (validate SensorType.PMSx003.message_header SensorType.PMSx003.message_length
        (extract SensorType.PMSx003.message_length (garbage18 ++ frame1) i)) = false) ∧
    garbage18.length = 18 ∧
    decode SensorType.PMSx003 1567201793 (garbage18 ++ frame1) =
      decode SensorType.PMSx003 1567201793 frame1 ∧
    decode SensorType.PMSx003 1567201793 (garbage18 ++ frame1) = .ok obs1 := by
  have hv : validate SensorType.PMSx003.message_header
      SensorType.PMSx003.message_length frame1 = .ok frame1 := by decide
  have hg : ∀ i, i < garbage18.length →
      okB (validate SensorType.PMSx003.message_header SensorType.PMSx003.message_length
        (extract SensorType.PMSx003.message_length (garbage18 ++ frame1) i)) = false := by
    decide
  have h := claim_C4_resync SensorType.PMSx003 1567201793 garbage18 frame1 hv hg
  exact ⟨hv, hg, rfl, h, h.trans (by decide)⟩

/-- C3: a frame with valid length, header and checksum whose payload bytes
are all zero fails validation and decoding with the distinct warming-up
empty condition, producing no observation; the concrete all-zero PMSx003
frame is the witness below. -/
theorem claim_C3_warmup (s : SensorType) (t : Nat) (msg : List Nat)
    (hmagic : 2 ≤ s.message_header.length)
    (hlen : msg.length = s.message_length)
    (hheader : msg.take s.message_header.length = s.message_header)
    (hck : tailWord msg = chksum msg)
    (hzero : (payloadOf s.message_header.length s.message_length msg).all (· = 0) = true) :
    validate s.message_header s.message_length msg = .error .empty ∧
    decode s t msg = .error .empty := by
  have hval : validate s.message_header s.message_length msg = .error .empty := by
    simp [validate, hlen, hheader, hck, hzero]
  have hhl : s.message_header.length ≤ msg.length := by
    have h := congrArg List.length hheader
    rw [List.length_take] at h
    omega
  have hmpos : 0 < msg.length := by omega
  have hext : extract s.message_length msg 0 = msg := by
    unfold extract
    rw [List.drop_zero, ← hlen, List.take_length]
  have hfv : findValid s msg = none := by
    unfold findValid
    rw [List.find?_eq_none]
    intro i hi
    rw [List.mem_range] at hi
    cases Nat.eq_zero_or_pos i with
    | inl h0 =>
      subst h0
      simp [hext, hval, okB]
    | inr hpos =>
      intro hcontra
      have hlen2 : (extract s.message_length msg i).length = s.message_length :=
        length_of_validate_ok _ _ _ hcontra
      unfold extract at hlen2
      rw [List.length_take, List.length_drop] at hlen2
      omega
  have h2 : msg.take 2 = s.message_header.take 2 := by
    have h := congrArg (List.take 2) hheader
    rwa [List.take_take, Nat.min_eq_left hmagic] at h
  have hmg : findMagic s msg = some 0 := by
    unfold findMagic
    rw [List.range_eq_range' msg.length]
    have h := find?_range'_first
      (fun i => decide ((msg.drop i).take 2 = s.message_header.take 2))
      msg.length 0 0 hmpos (fun i hi => absurd hi (Nat.not_lt_zero i))
      (by simp only [Nat.add_zero, List.drop_zero, decide_eq_true_eq]; exact h2)
    simpa using h
  refine ⟨hval, ?_⟩
  unfold decode
  simp only [hfv, hmg, hext]
  unfold decodeFrame
  rw [hval]

/-- C3 witness: the all-zero-payload PMSx003 frame with valid header and
checksum fails decoding with the warming-up empty condition. -/
theorem claim_C3_witness :
    2 ≤ SensorType.PMSx003.message_header.length ∧
    decode SensorType.PMSx003 1567201793 emptyFrame1 = .error .empty := by
  refine ⟨by decide, ?_⟩
  exact (claim_C3_warmup SensorType.PMSx003 1567201793 emptyFrame1
    (by decide) (by decide) (by decide) (by decide) (by decide)).2

/-- C5: `subset("cf")` returns, for each PM size, `_safe_div` of the
calibrated value by the raw value; `_safe_div x y` is the true ratio `x / y`
when the raw value is nonzero (so multiplying back by `y` recovers `x`),
`1` when both values are zero, and `0` when the raw value is zero and the
calibrated one is not — never a division by zero. -/
theorem claim_C5_cf_subset (o : PMSx003) (x y : Nat) :
    o.subset "cf" = some [("cf01", PMSx003._safe_div o.pm01 o.raw01),
                          ("cf25", PMSx003._safe_div o.pm25 o.raw25),
                          ("cf10", PMSx003._safe_div o.pm10 o.raw10)] ∧
    (y ≠ 0 → PMSx003._safe_div x y = (x : ℚ) / (y : ℚ)) ∧
    (y ≠ 0 → PMSx003._safe_div x y * (y : ℚ) = (x : ℚ)) ∧
    (x = 0 → y = 0 → PMSx003._safe_div x y = 1) ∧
    (y = 0 → x ≠ 0 → PMSx003._safe_div x y = 0) := by
  refine ⟨rfl, ?_, ?_, ?_, ?_⟩
  · intro hy; simp [PMSx003._safe_div, hy]
  · intro hy
    have hy2 : (y : ℚ) ≠ 0 := Nat.cast_ne_zero.mpr hy
    simp [PMSx003._safe_div, hy, div_mul_cancel₀ _ hy2]
  · intro hx hy; simp [PMSx003._safe_div, hx, hy]
  · intro hy hx; simp [PMSx003._safe_div, hx, hy]

/-- C5 witness: on the scenario-1 observation all collection factors are 1,
and `_safe_div` at the three case-defining inputs takes the stated values. -/
theorem claim_C5_witness :
    PMSx003.subset obs1 "cf" = some [("cf01", 1), ("cf25", 1), ("cf10", 1)] ∧
    PMSx003._safe_div 6 3 = 2 ∧
    PMSx003._safe_div 0 0 = 1 ∧
    PMSx003._safe_div 5 0 = 0 := by
  refine ⟨?_, ?_, ?_, ?_⟩
  · exact ((claim_C5_cf_subset obs1 6 3).1).trans
      (by norm_num [obs1, PMSx003._safe_div])
  · exact ((claim_C5_cf_subset obs1 6 3).2.1 (by decide)).trans (by norm_num)
  · exact (claim_C5_cf_subset obs1 0 0).2.2.2.1 rfl rfl
  · exact (claim_C5_cf_subset obs1 5 0).2.2.2.2 rfl (by decide)

/-- C6 counterexample: the PMS3003 observation decoded from the known-good
24-byte test frame carries a raw PM1.0 field (81) distinct from its
calibrated PM1.0 field (53), so a PMS3003 observation is not made of the
three calibrated values only. -/
theorem claim_C6_counterexample :
    decode SensorType.PMS3003 1567201793 frame3 = .ok obs3 ∧
    obs3.raw01 = 81 ∧ obs3.pm01 = 53 ∧ obs3.raw01 ≠ obs3.pm01 := by
  exact ⟨by decide, rfl, rfl, by decide⟩

/-- C6 amended: a PMS3003 observation carries six numeric fields — fields
0–2 are the raw (cf=1) PM1.0/2.5/10 estimates and fields 3–5 the calibrated
PM1.0/2.5/10 values — while the particle-count fields are absent (none). -/
theorem claim_C6_amended (t a b c d e f : Nat) :
    mkSensorData t [a, b, c, d, e, f] =
      some ⟨t, a, b, c, d, e, f, none, none, none, none, none, none⟩ ∧
    decode SensorType.PMS3003 1567201793 frame3 =
      .ok ⟨1567201793, 81, 106, 119, 53, 70, 79,
           none, none, none, none, none, none⟩ := by
  exact ⟨rfl, by decide⟩

/-- C7 counterexample: formatting the PMS3003 observation of the test frame
(no particle-count fields) with the `num` code does not fail — it returns a
string with the count positions rendered empty. -/
theorem claim_C7_counterexample :
    (PMSx003.format obs3 "num").isSome = true ∧
    PMSx003.format obs3 "num" =
      some (strftimeFT 1567201793 ++
        ": N0.3 , N0.5 , N1.0 , N2.5 , N5.0 , N10  #/100cc") := by
  exact ⟨rfl, rfl⟩

/-- C7 amended: the `num` code prints date/time followed by the
particle-count fields for every PMSx003-layout observation, rendering
absent counts as empty strings instead of failing; only a variant whose
formatter has no `num` branch at all (SDS01x) fails on the `num` code. -/
theorem claim_C7_amended (o : PMSx003) (o2 : SDS01x) :
    o.format "num" =
      some (strftimeFT o.time ++ ": N0.3 " ++ fmtD o.n0_3 ++ ", N0.5 " ++
        fmtD o.n0_5 ++ ", N1.0 " ++ fmtD o.n1_0 ++ ", N2.5 " ++ fmtD o.n2_5 ++
        ", N5.0 " ++ fmtD o.n5_0 ++ ", N10 " ++ fmtD o.n10_0 ++ " #/100cc") ∧
    SDS01x.format o2 "num" = none := by
  exact ⟨rfl, rfl⟩

/-- C8: an SDS01x observation stores the two wire fields unchanged as
integers, and the division by ten happens only at presentation time:
`subset("pm")` returns the wire values divided by ten (exactly — scaling
back by ten recovers the wire value), and the `pm` and `csv` formats render
those divided values. -/
theorem claim_C8_sds_presentation (t a b : Nat) :
    (SDS01x.mk t a b).raw25 = a ∧ (SDS01x.mk t a b).raw10 = b ∧
    SDS01x.subset ⟨t, a, b⟩ "pm" =
      some [("pm25", (a : ℚ) / 10), ("pm10", (b : ℚ) / 10)] ∧
    ((a : ℚ) / 10) * 10 = (a : ℚ) ∧
    SDS01x.format ⟨t, a, b⟩ "pm" =
      some (strftimeFT t ++ ": PM2.5 " ++ fix1 ((a : ℚ) / 10) ++ ", PM10 " ++
        fix1 ((b : ℚ) / 10) ++ " ug/m3") ∧
    SDS01x.format ⟨t, a, b⟩ "csv" =
      some (toString t ++ ", " ++ fix1 ((a : ℚ) / 10) ++ ", " ++
        fix1 ((b : ℚ) / 10)) := by
  exact ⟨rfl, rfl, rfl, div_mul_cancel₀ _ (by norm_num), rfl, rfl⟩

/-- C9 counterexample: a PMSx003 observation that carries raw and
particle-count fields still has its subset projection fail on the `raw` and
`num` codes. -/
theorem claim_C9_counterexample :
    obsFull.raw01 = 1 ∧ obsFull.n0_3 = some 7 ∧
    PMSx003.subset obsFull "raw" = none ∧
    PMSx003.subset obsFull "num" = none := by
  exact ⟨rfl, rfl, rfl, rfl⟩

/-- C9 amended: the subset projection accepts exactly the codes `pm` and
`cf` on PMSx003-layout observations and exactly `pm` on SDS01x
observations; every other code — including `raw` and `num` — fails. -/
theorem claim_C9_amended (o : PMSx003) (o2 : SDS01x) (s1 s2 : String) :
    ((o.subset s1).isSome ↔ s1 = "pm" ∨ s1 = "cf") ∧
    ((SDS01x.subset o2 s2).isSome ↔ s2 = "pm") := by
  constructor
  · by_cases h1 : s1 = "pm" <;> by_cases h2 : s1 = "cf" <;>
      simp [PMSx003.subset, h1, h2]
  · by_cases h : s2 = "pm" <;> simp [SDS01x.subset, h]

/-- C10: for every PMSx003 and every SDS01x observation, the default string
rendering is exactly the `pm` format (which always succeeds). -/
theorem claim_C10_str_is_pm (o : PMSx003) (o2 : SDS01x) :
    PMSx003.str o = o.format "pm" ∧ (o.format "pm").isSome = true ∧
    SDS01x.str o2 = SDS01x.format o2 "pm" ∧
    (SDS01x.format o2 "pm").isSome = true := by
  exact ⟨rfl, rfl, rfl, rfl⟩

end PyPMS
